import Mathlib

/-!
Verification of the CSV→MySQL importer (`src/mysql_importer.py`).

The development is a shallow embedding of the import pipeline of
`MysqlImporter`:
  * raw CSV columns are lists of `Option String` (a `none` cell is an
    empty/NA cell that pandas turns into NaN and line 128 then turns into
    Python `None`);
  * `readColumn` models the per-column dtype conversion `pandas.read_csv`
    performs (an all-integer column with no missing cells becomes `int64`,
    an all-numeric column becomes `float64`, anything else stays an
    object column of strings);
  * `Cell` is a cell of the resulting DataFrame, with Python floats
    modelled as rationals (every concrete float appearing in a theorem
    below, e.g. 20.5, is exactly representable as a binary double, so the
    rational model is exact on them);
  * `inferDtype` models `pandas.api.types.infer_dtype(·, skipna=True)`
    restricted to the cell kinds that can appear here;
  * `infer_column_types`, `is_date`, `to_date` and the body of
    `import_csv` are translated statement by statement from the source;
    the SQL statements issued through the cursor are recorded as a trace
    of structured `Stmt` values (the source renders them to strings; the
    structured form keeps exactly the table name, the column list in
    order, and the positionally bound parameters).
-/

/-- A parsed date, as produced by `dateutil.parser.parse` (we keep only the
date fields; the importer stores the values in a MySQL `DATE` column). -/
structure PDate where
  year : Nat
  month : Nat
  day : Nat
deriving DecidableEq, Repr

/-- A cell of the pandas DataFrame after `read_csv` and after line 128
(`df.where(pd.notnull(df), None)`) has replaced NaN by `None`:
either Python `None` (`missing`), an `int64` value, a `float64` value
(modelled as a rational), or a `str`. -/
inductive Cell where
  | missing : Cell
  | intv : Int → Cell
  | floatv : ℚ → Cell
  | strv : String → Cell
deriving DecidableEq, Repr

/-- A typed value bound as a parameter of an INSERT statement. -/
inductive Value where
  | intV : Int → Value
  | floatV : ℚ → Value
  | dateV : PDate → Value
  | strV : String → Value
deriving DecidableEq, Repr

/-- The closed set of MySQL column types the inferrer can produce
(source lines 93-108: 'INT', 'FLOAT', 'DATE', 'VARCHAR(255)', 'LONGTEXT';
the VARCHAR bound is hardcoded to 255). -/
inductive MType where
  | INT : MType
  | FLOAT : MType
  | DATE : MType
  | VARCHAR255 : MType
  | LONGTEXT : MType
deriving DecidableEq, Repr

/-- The labels `pandas.api.types.infer_dtype` can return that are relevant
to the cell kinds of this pipeline.  `datetime64` and `date` are kept
because source line 103 tests for them, although `inferDtype` below can
never produce them from a `Cell` list (read_csv is called without
`parse_dates`, so no datetime cells exist). -/
inductive Dtype where
  | empty : Dtype
  | integer : Dtype
  | mixedInteger : Dtype
  | floating : Dtype
  | mixedIntegerFloat : Dtype
  | string : Dtype
  | mixed : Dtype
  | datetime64 : Dtype
  | date : Dtype
deriving DecidableEq, Repr

/-- A DataFrame: ordered column names with their cell lists (pandas stores
data column-wise; `iterrows` recovers the rows). -/
def Df : Type := List (String × List Cell)

/- ## String→number parsers (Python `int()` / `float()` on `str`)

`int(s)` accepts an optional sign followed by digits; `float(s)` accepts an
optional sign and digits with at most one decimal point.  (Python also
accepts surrounding whitespace, underscores and exponent notation; no
string exercised below uses those, so they are not modelled.) -/

/-- Numeric value of a digit list (most significant first). -/
def digitsVal (l : List Char) : Nat :=
  l.foldl (fun a c => a * 10 + (c.toNat - 48)) 0

/-- Nonempty and all decimal digits. -/
def isDigits (l : List Char) : Bool :=
  !l.isEmpty && l.all Char.isDigit

/-- Python `int(s)` for a string `s`: `some` value, or `none` when `int`
would raise `ValueError`. -/
def intString? (s : String) : Option Int :=
  match s.data with
  | [] => none
  | c :: cs =>
    if c = '-' then
      if isDigits cs then some (-(digitsVal cs : Int)) else none
    else
      if isDigits (c :: cs) then some (digitsVal (c :: cs) : Int) else none

/-- Unsigned decimal with at most one point, e.g. `10`, `20.5`, `.5`, `5.`. -/
def floatCore? (l : List Char) : Option ℚ :=
  match l.splitOn '.' with
  | [a] => if isDigits a then some (digitsVal a : ℚ) else none
  | [a, b] =>
    if (isDigits a || a.isEmpty) && (isDigits b || b.isEmpty)
        && !(a.isEmpty && b.isEmpty) then
      some ((digitsVal a : ℚ) + (digitsVal b : ℚ) / ((10 : ℚ) ^ b.length))
    else none
  | _ => none

/-- Python `float(s)` for a string `s`: `some` value, or `none` when
`float` would raise `ValueError`. -/
def floatString? (s : String) : Option ℚ :=
  match s.data with
  | [] => none
  | c :: cs => if c = '-' then (floatCore? cs).map (fun q => -q) else floatCore? (c :: cs)

/- ## The date parser (`dateutil.parser.parse(·, fuzzy=False)`)

Modelled on numeric ISO-style dates `YYYY-MM-DD`.  dateutil accepts many
further formats (month names, two-field dates, bare numbers); every string
a theorem below feeds to `parseDate` is classified exactly as dateutil
classifies it: `"2021-09-25"`-style strings parse, and letter strings with
no date tokens (`"hello"`, `"hello world"`, runs of `'a'`) raise
`ValueError`.  Calendar-exact day-per-month validation is not modelled
(a day is valid when `1 ≤ d ≤ 31`). -/

/-- Model of `dateutil.parser.parse(s, fuzzy=False)`: `some` date or `none`
when the parser raises. -/
def parseDate (s : String) : Option PDate :=
  match s.data.splitOn '-' with
  | [y, m, d] =>
    if isDigits y && isDigits m && isDigits d
        && y.length = 4
        && 1 ≤ digitsVal m && digitsVal m ≤ 12
        && 1 ≤ digitsVal d && digitsVal d ≤ 31 then
      some ⟨digitsVal y, digitsVal m, digitsVal d⟩
    else none
  | _ => none

/- ## Stringification (Python `str`) -/

/-- Decimal digits of the fractional part `q` (with `0 ≤ q < 1`), fuel-bounded. -/
def fracDigitsAux : Nat → ℚ → List Char
  | 0, _ => []
  | n + 1, q =>
    if q = 0 then []
    else
      let q10 := q * 10
      let d := q10.floor
      Char.ofNat (48 + d.toNat) :: fracDigitsAux n (q10 - (d : ℚ))

/-- Decimal rendering of a float value, as Python `str` renders a float
(`str(10.0) = "10.0"`). -/
def floatRepr (q : ℚ) : String :=
  let sign := if q < 0 then "-" else ""
  let aq := if q < 0 then -q else q
  let ip := aq.floor.toNat
  let fp := aq - (aq.floor : ℚ)
  if fp = 0 then sign ++ toString ip ++ ".0"
  else sign ++ toString ip ++ "." ++ String.mk (fracDigitsAux 20 fp)

/-- Python `str(x)` on a cell (`str(None) = "None"`; the source only applies
it under a `pd.notnull` guard, so the `missing` case is never reached). -/
def strOfCell : Cell → String
  | .missing => "None"
  | .intv n => toString n
  | .floatv q => floatRepr q
  | .strv s => s

/- ## is_date / to_date (source lines 42-72) -/

/-- `MysqlImporter.is_date` (lines 42-56): `parse(string, fuzzy=False)`
succeeds → `True`; `ValueError`/`TypeError` → `False`. -/
def is_date (s : String) : Bool :=
  (parseDate s).isSome

/-- `MysqlImporter.to_date` (lines 59-72): try `parse(string, fuzzy=False)`
and on `ValueError`/`TypeError` return the input unchanged.  A non-string
argument makes `parse` raise `TypeError`, so ints/floats come back
unchanged, and `None` comes back as `None`. -/
def to_date : Cell → Option Value
  | .missing => none
  | .strv s =>
    match parseDate s with
    | some d => some (.dateV d)
    | none => some (.strV s)
  | .intv n => some (.intV n)
  | .floatv q => some (.floatV q)

/- ## pandas infer_dtype -/

/-- Non-missing values of a column (`skipna=True`). -/
def nonMissing (cells : List Cell) : List Cell :=
  cells.filter (fun c => c ≠ .missing)

/-- Is the cell a Python/NumPy integer? -/
def isIntCell : Cell → Bool
  | .intv _ => true
  | _ => false

/-- Is the cell a float? -/
def isFloatCell : Cell → Bool
  | .floatv _ => true
  | _ => false

/-- Is the cell a string? -/
def isStrCell : Cell → Bool
  | .strv _ => true
  | _ => false

/-- `pandas.api.types.infer_dtype(cells, skipna=True)` on the cell kinds of
this pipeline: all ints → `integer`; all floats → `floating`; ints and
floats → `mixed-integer-float`; all strings → `string`; strings mixed with
ints → `mixed-integer`; strings mixed with floats → `mixed`; no
non-missing value → `empty`. -/
def inferDtype (cells : List Cell) : Dtype :=
  if (nonMissing cells).isEmpty then .empty
  else if (nonMissing cells).all isIntCell then .integer
  else if (nonMissing cells).all isFloatCell then .floating
  else if (nonMissing cells).all (fun c => isIntCell c || isFloatCell c) then .mixedIntegerFloat
  else if (nonMissing cells).all isStrCell then .string
  else if (nonMissing cells).any isIntCell then .mixedInteger
  else .mixed

/- ## Type inference (source lines 75-110) -/

/-- The per-value test of source line 100:
`self.is_date(str(x)) if pd.notnull(x) else True`. -/
def dateOK (c : Cell) : Bool :=
  match c with
  | .missing => true
  | c => is_date (strOfCell c)

/-- A string cell's payload, for `.str.len()` (which yields NaN on
non-string values, skipped by `.max()`). -/
def strCell? : Cell → Option String
  | .strv s => some s
  | _ => none

/-- `df_sample[col].str.len().max()` of source line 106: the maximum string
length among string cells, or `none` when there is no string cell (pandas
then yields NaN, and `NaN <= 255` is `False`). -/
def maxStrLen? (cells : List Cell) : Option Nat :=
  ((cells.filterMap strCell?).map String.length).max?

/-- The string/text fallback of source line 106:
`'VARCHAR(255)' if df_sample[col].str.len().max() <= 255 else 'LONGTEXT'`. -/
def strFallback (sample : List Cell) : MType :=
  match maxStrLen? sample with
  | some m => if m ≤ 255 then .VARCHAR255 else .LONGTEXT
  | none => .LONGTEXT

/-- The per-column body of `MysqlImporter.infer_column_types`
(lines 88-108), applied to the column's cells; the sample is the first
1000 rows (`df.head(1000)`, line 85). -/
def inferColType (cells : List Cell) : MType :=
  if inferDtype (cells.take 1000) = .integer ∨ inferDtype (cells.take 1000) = .mixedInteger then
    .INT
  else if inferDtype (cells.take 1000) = .floating
      ∨ inferDtype (cells.take 1000) = .mixedIntegerFloat then
    .FLOAT
  else if (cells.take 1000).all dateOK then .DATE
  else if inferDtype (cells.take 1000) = .datetime64 ∨ inferDtype (cells.take 1000) = .date then
    .DATE
  else if inferDtype (cells.take 1000) = .string ∨ inferDtype (cells.take 1000) = .mixed then
    strFallback (cells.take 1000)
  else .VARCHAR255

/-- `MysqlImporter.infer_column_types` (lines 75-110): one inferred type
per column, in column order (Python dicts preserve insertion order). -/
def infer_column_types (df : Df) : List (String × MType) :=
  df.map (fun p => (p.1, inferColType p.2))

/- ## read_csv dtype conversion (the Decoder's output)

`pandas.read_csv` assigns one dtype per column: a column whose cells are
all integer literals with no missing cell becomes `int64`; a column whose
non-missing cells are all numeric literals becomes `float64` (a missing
cell forces `float64` because NaN is a float, which is why an int-like
column with holes is *not* `int64`); every other column stays an object
column of strings.  Line 128 then replaces NaN with `None` (here: cells
are already `missing`). -/

/-- Dtype conversion of one raw CSV column, as `read_csv` performs it. -/
def readColumn (raws : List (Option String)) : List Cell :=
  if raws.all (fun r =>
      match r with
      | some s => (intString? s).isSome
      | none => false) then
    raws.map (fun r =>
      match r with
      | some s =>
        match intString? s with
        | some n => Cell.intv n
        | none => Cell.missing
      | none => Cell.missing)
  else if raws.all (fun r =>
      match r with
      | some s => (floatString? s).isSome
      | none => true) then
    raws.map (fun r =>
      match r with
      | some s =>
        match floatString? s with
        | some q => Cell.floatv q
        | none => Cell.missing
      | none => Cell.missing)
  else
    raws.map (fun r =>
      match r with
      | some s => Cell.strv s
      | none => Cell.missing)

/-- A raw CSV: ordered column names with raw cells (`none` = empty/NA cell). -/
def Csv : Type := List (String × List (Option String))

/-- The DataFrame `read_csv` produces from a CSV. -/
def readCsv (c : Csv) : Df :=
  c.map (fun p => (p.1, readColumn p.2))

/- ## The decoder's encoding fallback (source lines 122-125)

```
try:
    df = pd.read_csv(csv_file_path)
except:
    df = pd.read_csv(csv_file_path, encoding='ISO-8859-1')
```
The `except:` clause is bare: it catches every exception kind, not only
decode errors.  A file is modelled by the outcome of each of the two read
attempts. -/

/-- The kinds of exception `pd.read_csv` can raise. -/
inductive ReadErr where
  | decodeError : ReadErr
  | fileNotFound : ReadErr
  | otherError : ReadErr
deriving DecidableEq, Repr

/-- A CSV file, modelled by what each read attempt returns:
`readDefault` is `pd.read_csv(path)` with the default encoding,
`readFallback` is `pd.read_csv(path, encoding='ISO-8859-1')`. -/
structure CsvFile where
  readDefault : Except ReadErr Df
  readFallback : Except ReadErr Df

/-- Source lines 122-125: try the default encoding; on ANY exception
(bare `except:`) retry once with ISO-8859-1; a failure of the retry
propagates. -/
def readCsvWithFallback (f : CsvFile) : Except ReadErr Df :=
  match f.readDefault with
  | .ok df => .ok df
  | .error _ => f.readFallback

/- ## Value coercion and the insert loop (source lines 144-166) -/

/-- `str(val).replace('"', "'")` of source line 156.  Python `str.replace`
with a one-character pattern substitutes character-wise: every
double-quote (code 34) becomes a single-quote (code 39). -/
def replaceQuotes (s : String) : String :=
  String.mk (s.data.map (fun c => if c = Char.ofNat 34 then Char.ofNat 39 else c))

/-- Dict lookup `columns_types[col]` (line 147/150/152).  The dict has one
entry per DataFrame column (proved below), so the default is never used. -/
def lookupType (types : List (String × MType)) (col : String) : MType :=
  (List.lookup col types).getD .VARCHAR255

/-- Coercion of one cell by the branch of lines 147-156 selected by its
column's inferred type.  `Except.error` models an uncaught Python
exception (`int(val)` / `float(val)` raising `ValueError`). -/
def coerceCell (t : MType) (c : Cell) : Except String (Option Value) :=
  match t with
  | .DATE =>
    match c with
    | .missing => .ok none
    | c => .ok (to_date c)
  | .INT =>
    match c with
    | .missing => .ok none
    | .intv n => .ok (some (.intV n))
    | .floatv q => .ok (some (.intV (if 0 ≤ q then q.floor else -((-q).floor))))
    | .strv s =>
      match intString? s with
      | some n => .ok (some (.intV n))
      | none => .error "invalid literal for int() with base 10"
  | .FLOAT =>
    match c with
    | .missing => .ok none
    | .intv n => .ok (some (.floatV (n : ℚ)))
    | .floatv q => .ok (some (.floatV q))
    | .strv s =>
      match floatString? s with
      | some q => .ok (some (.floatV q))
      | none => .error "could not convert string to float"
  | .VARCHAR255 | .LONGTEXT =>
    match c with
    | .missing => .ok none
    | c => .ok (some (.strV (replaceQuotes (strOfCell c))))

/-- One row of `df.iterrows()` (line 144): the cells at a given index, one
per column, in column order. -/
def dfRow (df : Df) (i : Nat) : List (String × Cell) :=
  df.map (fun p => (p.1, p.2.getD i .missing))

/-- Number of rows of the DataFrame (pandas keeps all columns the same
length; `foldr max 0` totalizes the model on ragged column lists). -/
def numRows (df : Df) : Nat :=
  (df.map (fun p => p.2.length)).foldr Nat.max 0

/-- All rows, in order. -/
def dfRows (df : Df) : List (List (String × Cell)) :=
  (List.range (numRows df)).map (dfRow df)

/-- Lines 145-156: build the row's `values` list, one coerced cell per
column in column order; the first uncaught exception aborts the row. -/
def coerceRow (types : List (String × MType)) :
    List (String × Cell) → Except String (List (Option Value))
  | [] => .ok []
  | p :: ps =>
    match coerceCell (lookupType types p.1) p.2 with
    | .ok v =>
      match coerceRow types ps with
      | .ok vs => .ok (v :: vs)
      | .error e => .error e
    | .error e => .error e

/-- A statement executed through the cursor, in structured form: the
source renders `create` as
`CREATE TABLE IF NOT EXISTS <name> (<col> <TYPE>, ...);` (lines 139-140)
and `insert` as
`INSERT INTO <name> (<cols>) VALUES (%s, ...);` with the parameters bound
positionally (lines 159-164); `commitTx` is `conn.commit()` (line 166). -/
inductive Stmt where
  | create : String → List (String × MType) → Stmt
  | insert : String → List String → List (Option Value) → Stmt
  | commitTx : Stmt
deriving DecidableEq, Repr

/-- The insert loop of lines 144-164: one parameterized INSERT per row; an
uncaught coercion exception stops the loop, keeping the statements already
executed and recording the propagated error. -/
def execRows (tn : String) (types : List (String × MType)) (cols : List String) :
    List (List (String × Cell)) → List Stmt × Option String
  | [] => ([], none)
  | r :: rs =>
    match coerceRow types r with
    | .ok vs =>
      (Stmt.insert tn cols vs :: (execRows tn types cols rs).1, (execRows tn types cols rs).2)
    | .error e => ([], some e)

/-- Lines 130-166 of `import_csv`, starting from the decoded DataFrame:
infer the column types, execute CREATE TABLE, run the insert loop, and
commit once after the loop — unless an exception aborted the loop, in
which case the commit is never reached and the error propagates.  Returns
the trace of executed statements and the propagated error, if any. -/
def runImport (tn : String) (df : Df) : List Stmt × Option String :=
  match (execRows tn (infer_column_types df) (df.map Prod.fst) (dfRows df)).2 with
  | none =>
    (Stmt.create tn (infer_column_types df) ::
      (execRows tn (infer_column_types df) (df.map Prod.fst) (dfRows df)).1
      ++ [Stmt.commitTx], none)
  | some e =>
    (Stmt.create tn (infer_column_types df) ::
      (execRows tn (infer_column_types df) (df.map Prod.fst) (dfRows df)).1, some e)

/-- `MysqlImporter.import_csv` (lines 113-167): decode with encoding
fallback, then run the import; a decode failure of both attempts
propagates to the caller. -/
def import_csv (tn : String) (f : CsvFile) : Except ReadErr (List Stmt × Option String) :=
  (readCsvWithFallback f).map (runImport tn)

/- ## Helper lemmas -/

/-- The string/text fallback only produces VARCHAR(255) or LONGTEXT. -/
theorem strFallback_cases (sample : List Cell) :
    strFallback sample = .VARCHAR255 ∨ strFallback sample = .LONGTEXT := by
  unfold strFallback
  cases maxStrLen? sample with
  | none => exact Or.inr rfl
  | some m =>
    by_cases h : m ≤ 255
    · exact Or.inl (by simp [h])
    · exact Or.inr (by simp [h])

/-- `infer_dtype` on object cells never reports a datetime dtype (read_csv
is called without `parse_dates`, so no cell is a datetime). -/
theorem inferDtype_not_datetime (cells : List Cell) :
    inferDtype cells ≠ .datetime64 ∧ inferDtype cells ≠ .date := by
  unfold inferDtype
  repeat' split
  all_goals exact ⟨by decide, by decide⟩

/-- A column with no integer cell cannot get dtype `integer` or
`mixed-integer`. -/
theorem inferDtype_no_int {cells : List Cell}
    (h : ∀ c ∈ cells, isIntCell c = false) :
    inferDtype cells ≠ .integer ∧ inferDtype cells ≠ .mixedInteger := by
  have hv : ∀ c ∈ nonMissing cells, isIntCell c = false := fun c hc =>
    h c (List.mem_of_mem_filter hc)
  unfold inferDtype
  split
  · exact ⟨by decide, by decide⟩
  next hne =>
    obtain ⟨c0, hc0⟩ : ∃ c, c ∈ nonMissing cells := by
      cases hnm : nonMissing cells with
      | nil => rw [hnm] at hne; simp at hne
      | cons a l => exact ⟨a, hnm ▸ List.mem_cons_self a l⟩
    split
    next hint =>
      exact absurd (List.all_eq_true.mp hint c0 hc0) (by rw [hv c0 hc0]; decide)
    next =>
      split
      · exact ⟨by decide, by decide⟩
      next =>
        split
        · exact ⟨by decide, by decide⟩
        next =>
          split
          · exact ⟨by decide, by decide⟩
          next =>
            split
            next hany =>
              obtain ⟨c, hc, hci⟩ := List.any_eq_true.mp hany
              exact absurd hci (by rw [hv c hc]; decide)
            next => exact ⟨by decide, by decide⟩

/-- Max-membership bound for `List.max?` over naturals. -/
theorem le_of_mem_max? {l : List Nat} {x m : Nat} (hx : x ∈ l) (hm : l.max? = some m) :
    x ≤ m := by
  rw [List.max?_eq_some_iff] at hm
  · exact hm.2 x hx
  · exact fun a => Nat.le_refl a
  · exact fun a b => max_choice a b
  · exact fun a b c => Nat.max_le

/- ## C3: the decoder's retry policy -/

/-- A file whose first read attempt fails with a *non-decode* error
(missing file) and whose fallback read succeeds. -/
def fbFile : CsvFile :=
  { readDefault := .error .fileNotFound, readFallback := .ok [] }

/-- C3 counterexample: the claim says the fallback read happens **only**
when the first attempt fails with a decoding exception, and that other
errors (e.g. a missing file) propagate fatally.  But the source's bare
`except:` retries on *any* exception: on a file whose default-encoding
read raises a missing-file error, the importer retries and returns the
fallback's DataFrame instead of propagating the error. -/
theorem c3_counterexample :
    readCsvWithFallback fbFile = .ok ([] : Df)
    ∧ (Except.ok ([] : Df) ≠ (.error .fileNotFound : Except ReadErr Df)) :=
  ⟨rfl, fun h => Except.noConfusion h⟩

/-- C3 (amended): the read step attempts the default encoding first and,
on **any** exception from that attempt (decode error or not), retries
exactly once with the fallback encoding ISO-8859-1; if the first attempt
succeeds there is no retry, and if both attempts fail the second
attempt's error propagates fatally to the caller. -/
theorem c3_fallback_retry (f : CsvFile) :
    (∀ df, f.readDefault = .ok df → readCsvWithFallback f = .ok df)
    ∧ (∀ e, f.readDefault = .error e → readCsvWithFallback f = f.readFallback)
    ∧ (∀ e e2, f.readDefault = .error e → f.readFallback = .error e2 →
        readCsvWithFallback f = .error e2) := by
  refine ⟨?_, ?_, ?_⟩
  · intro df h
    unfold readCsvWithFallback
    rw [h]
  · intro e h
    unfold readCsvWithFallback
    rw [h]
  · intro e e2 h h2
    unfold readCsvWithFallback
    rw [h, h2]

/-- Witness for C3's amended theorem at a concrete file. -/
theorem c3_fallback_retry_witness :
    fbFile.readDefault = .error .fileNotFound
    ∧ readCsvWithFallback fbFile = fbFile.readFallback :=
  ⟨rfl, (c3_fallback_retry fbFile).2.1 .fileNotFound rfl⟩

/- ## C1: DATE coercion of missing and unparsable cells -/

/-- A 1001-row column whose first 1000 rows (the inference sample) are
dates and whose last, out-of-sample row is not a date. -/
def c1raws : List (Option String) :=
  List.replicate 1000 (some "2021-09-25") ++ [some "hello"]

/-- C1 counterexample: the claim says that in a DATE-inferred column a
non-missing cell rejected by the date parser is normalized to NULL.  In
this column the inferrer assigns DATE (the sample rows all parse), yet
the out-of-sample cell `"hello"` fails the parser and the coercer binds
the raw string `"hello"`, not NULL — `to_date` returns its input
unchanged on parse failure. -/
theorem c1_counterexample :
    inferColType (readColumn c1raws) = .DATE
    ∧ (readColumn c1raws).getD 1000 .missing = .strv "hello"
    ∧ parseDate "hello" = none
    ∧ coerceCell .DATE (.strv "hello") = .ok (some (.strV "hello"))
    ∧ (some (Value.strV "hello") : Option Value) ≠ none :=
  ⟨by set_option maxRecDepth 10000 in decide, by set_option maxRecDepth 10000 in decide,
   rfl, rfl, by decide⟩

/-- C1 (amended): for a cell of a DATE column the coercer returns NULL
when the cell is missing (never the literal strings produced by
stringifying None/NaN), and when the cell is a non-missing string on
which the non-fuzzy date parser fails it binds the **original raw
string** (not NULL) without failing the row; on parser success it binds
the parsed date. -/
theorem c1_date_coercion (s : String) :
    coerceCell .DATE .missing = .ok none
    ∧ (parseDate s = none → coerceCell .DATE (.strv s) = .ok (some (.strV s)))
    ∧ (∀ d, parseDate s = some d → coerceCell .DATE (.strv s) = .ok (some (.dateV d))) := by
  refine ⟨rfl, ?_, ?_⟩
  · intro h
    show Except.ok (to_date (Cell.strv s)) = Except.ok (some (Value.strV s))
    rw [show to_date (Cell.strv s) = some (Value.strV s) from by simp only [to_date]; rw [h]]
  · intro d h
    show Except.ok (to_date (Cell.strv s)) = Except.ok (some (Value.dateV d))
    rw [show to_date (Cell.strv s) = some (Value.dateV d) from by simp only [to_date]; rw [h]]

/-- Witness for C1's amended theorem at a concrete unparsable string. -/
theorem c1_date_coercion_witness :
    parseDate "hello" = none
    ∧ coerceCell .DATE (.strv "hello") = .ok (some (.strV "hello")) :=
  ⟨rfl, (c1_date_coercion "hello").2.1 rfl⟩

/- ## C9: string coercion -/

/-- A single-quote character (code 39) as a string. -/
def singleQuote : String := String.mk [Char.ofNat 39]

/-- Mapping a function that fixes every element of a list is the identity. -/
theorem list_map_id_of_fixed {α : Type} (f : α → α) :
    ∀ l : List α, (∀ c ∈ l, f c = c) → l.map f = l
  | [], _ => rfl
  | a :: l, h => by
    rw [List.map_cons, h a (List.mem_cons_self a l),
      list_map_id_of_fixed f l (fun c hc => h c (List.mem_cons_of_mem a hc))]

/-- C9: for a BOUNDED_STRING/UNBOUNDED_TEXT column the coercer returns
NULL on a missing cell, and otherwise the stringified raw value with
every double-quote character (code 34) replaced by a single-quote
character (code 39); a string without double quotes is left unchanged
(so the coercion is idempotent on such values), and a coerced string
never contains a double quote. -/
theorem c9_string_coercion (t : MType) (ht : t = .VARCHAR255 ∨ t = .LONGTEXT) :
    coerceCell t .missing = .ok none
    ∧ (∀ c : Cell, c ≠ .missing →
        coerceCell t c = .ok (some (.strV (replaceQuotes (strOfCell c)))))
    ∧ (∀ s : String, Char.ofNat 34 ∉ s.data → replaceQuotes s = s)
    ∧ (∀ s : String, Char.ofNat 34 ∉ (replaceQuotes s).data) := by
  refine ⟨?_, ?_, ?_, ?_⟩
  · rcases ht with rfl | rfl <;> rfl
  · intro c hc
    rcases ht with rfl | rfl <;> cases c <;> first | exact absurd rfl hc | rfl
  · intro s hs
    show String.mk (s.data.map _) = s
    rw [list_map_id_of_fixed _ s.data
      (fun c hc => if_neg (fun hEq : c = Char.ofNat 34 => hs (hEq ▸ hc)))]
  · intro s hmem
    have hm : Char.ofNat 34 ∈ s.data.map
        (fun c => if c = Char.ofNat 34 then Char.ofNat 39 else c) := hmem
    obtain ⟨a, _, hfa⟩ := List.mem_map.mp hm
    by_cases h : a = Char.ofNat 34
    · rw [if_pos h] at hfa
      exact absurd hfa (by decide)
    · rw [if_neg h] at hfa
      exact h hfa

/-- Witness for C9 at the spec's Scenario D input. -/
theorem c9_string_coercion_witness :
    replaceQuotes "He said \"hi\"" = "He said " ++ singleQuote ++ "hi" ++ singleQuote
    ∧ coerceCell .VARCHAR255 (.strv "He said \"hi\"") =
        .ok (some (.strV (replaceQuotes "He said \"hi\""))) :=
  ⟨by decide,
   (c9_string_coercion .VARCHAR255 (Or.inl rfl)).2.1 (.strv "He said \"hi\"") (by decide)⟩

/- ## C6: the FLOAT scenario -/

/-- The spec's Scenario A input: column `price` with raw values
`"10"`, `"20.5"`, `"30"`. -/
def priceCsv : Csv := [("price", [some "10", some "20.5", some "30"])]

/-- C6: on the column `price` = ["10", "20.5", "30"] the inferrer assigns
FLOAT (read_csv makes the whole column float64 because one value has a
fractional part, and all-floats dtype maps to FLOAT), and the import
binds the coerced float values 10.0, 20.5, 30.0 (exactly representable;
20.5 is the rational 41/2), one INSERT per row, committing at the end. -/
theorem c6_float_scenario :
    infer_column_types (readCsv priceCsv) = [("price", .FLOAT)]
    ∧ runImport "t" (readCsv priceCsv) =
      ([.create "t" [("price", .FLOAT)],
        .insert "t" ["price"] [some (.floatV 10)],
        .insert "t" ["price"] [some (.floatV (41 / 2))],
        .insert "t" ["price"] [some (.floatV 30)],
        .commitTx], none) :=
  ⟨by decide, by with_unfolding_all decide⟩

/- ## C2: the DATE-classification rule -/

/-- C2: for a column that fails numeric classification, the inferrer
assigns DATE iff every sampled value is missing or accepted by the
non-fuzzy date parser; and if some non-missing sampled value is rejected,
the column goes to the string/text fallback (VARCHAR(255) or LONGTEXT). -/
theorem c2_date_iff (cells : List Cell)
    (h1 : inferDtype (cells.take 1000) ≠ .integer)
    (h2 : inferDtype (cells.take 1000) ≠ .mixedInteger)
    (h3 : inferDtype (cells.take 1000) ≠ .floating)
    (h4 : inferDtype (cells.take 1000) ≠ .mixedIntegerFloat) :
    (inferColType cells = .DATE ↔ (cells.take 1000).all dateOK = true)
    ∧ ((cells.take 1000).all dateOK = false →
        inferColType cells = .VARCHAR255 ∨ inferColType cells = .LONGTEXT) := by
  have hn1 : ¬(inferDtype (cells.take 1000) = .integer
      ∨ inferDtype (cells.take 1000) = .mixedInteger) := by
    rintro (h | h)
    exacts [h1 h, h2 h]
  have hn2 : ¬(inferDtype (cells.take 1000) = .floating
      ∨ inferDtype (cells.take 1000) = .mixedIntegerFloat) := by
    rintro (h | h)
    exacts [h3 h, h4 h]
  have hnd := inferDtype_not_datetime (cells.take 1000)
  have hn4 : ¬(inferDtype (cells.take 1000) = .datetime64
      ∨ inferDtype (cells.take 1000) = .date) := by
    rintro (h | h)
    exacts [hnd.1 h, hnd.2 h]
  unfold inferColType
  rw [if_neg hn1, if_neg hn2]
  by_cases hd : (cells.take 1000).all dateOK = true
  · rw [if_pos hd]
    exact ⟨⟨fun _ => hd, fun _ => rfl⟩, fun hf => by rw [hd] at hf; cases hf⟩
  · rw [if_neg hd, if_neg hn4]
    have hdf : (cells.take 1000).all dateOK = false := Bool.eq_false_iff.mpr hd
    by_cases hs : inferDtype (cells.take 1000) = .string
        ∨ inferDtype (cells.take 1000) = .mixed
    · rw [if_pos hs]
      refine ⟨⟨fun hEq => ?_, fun hT => by rw [hT] at hdf; cases hdf⟩,
        fun _ => strFallback_cases _⟩
      rcases strFallback_cases (cells.take 1000) with h | h <;>
        rw [h] at hEq <;> cases hEq
    · rw [if_neg hs]
      exact ⟨⟨fun h => MType.noConfusion h, fun hT => by rw [hT] at hdf; cases hdf⟩,
        fun _ => Or.inl rfl⟩

/-- Witness for C2 on a concrete string column of one date and one
missing value. -/
theorem c2_date_iff_witness :
    inferColType [Cell.strv "2021-01-02", Cell.missing] = .DATE :=
  ((c2_date_iff [Cell.strv "2021-01-02", Cell.missing]
    (by decide) (by decide) (by decide) (by decide)).1).mpr (by decide)

/- ## C5: the string/text length fallback -/

/-- C5: for a string-like or mixed column that fails numeric and date
classification, the inferrer assigns VARCHAR(255) when the maximum
observed string length in the sample is at most 255 and LONGTEXT
otherwise; in particular one sampled value longer than 255 characters
makes the whole column LONGTEXT. -/
theorem c5_string_fallback (cells : List Cell)
    (h1 : inferDtype (cells.take 1000) = .string ∨ inferDtype (cells.take 1000) = .mixed)
    (h2 : (cells.take 1000).all dateOK = false) :
    (∀ m, maxStrLen? (cells.take 1000) = some m →
        inferColType cells = if m ≤ 255 then .VARCHAR255 else .LONGTEXT)
    ∧ (∀ s, Cell.strv s ∈ cells.take 1000 → 255 < s.length →
        inferColType cells = .LONGTEXT) := by
  have hn1 : ¬(inferDtype (cells.take 1000) = .integer
      ∨ inferDtype (cells.take 1000) = .mixedInteger) := by
    rcases h1 with h | h <;> rw [h] <;> rintro (hc | hc) <;> cases hc
  have hn2 : ¬(inferDtype (cells.take 1000) = .floating
      ∨ inferDtype (cells.take 1000) = .mixedIntegerFloat) := by
    rcases h1 with h | h <;> rw [h] <;> rintro (hc | hc) <;> cases hc
  have hn4 : ¬(inferDtype (cells.take 1000) = .datetime64
      ∨ inferDtype (cells.take 1000) = .date) := by
    rcases h1 with h | h <;> rw [h] <;> rintro (hc | hc) <;> cases hc
  have hdn : ¬(cells.take 1000).all dateOK = true := by
    rw [h2]
    exact Bool.false_ne_true
  have hcol : inferColType cells = strFallback (cells.take 1000) := by
    unfold inferColType
    rw [if_neg hn1, if_neg hn2, if_neg hdn, if_neg hn4, if_pos h1]
  refine ⟨?_, ?_⟩
  · intro m hm
    rw [hcol]
    unfold strFallback
    rw [hm]
  · intro s hs hlen
    have hmem : s.length ∈ ((cells.take 1000).filterMap strCell?).map String.length := by
      refine List.mem_map.mpr ⟨s, ?_, rfl⟩
      exact List.mem_filterMap.mpr ⟨Cell.strv s, hs, rfl⟩
    obtain ⟨m, hm⟩ : ∃ m, maxStrLen? (cells.take 1000) = some m := by
      unfold maxStrLen?
      cases hl : ((cells.take 1000).filterMap strCell?).map String.length with
      | nil => rw [hl] at hmem; cases hmem
      | cons a t => exact ⟨t.foldl max a, rfl⟩
    have hle : s.length ≤ m := le_of_mem_max? hmem hm
    rw [hcol]
    unfold strFallback
    rw [hm]
    show (if m ≤ 255 then MType.VARCHAR255 else MType.LONGTEXT) = MType.LONGTEXT
    exact if_neg
      (fun hc : m ≤ 255 => Nat.lt_irrefl 255 (Nat.lt_of_lt_of_le hlen (Nat.le_trans hle hc)))

/-- Witness for C5 on a short string column (the date check fails on
`"hello world"`, the maximum length 11 is below the bound). -/
theorem c5_string_fallback_witness :
    inferColType [Cell.strv "hello world"] = .VARCHAR255 := by
  have h := (c5_string_fallback [Cell.strv "hello world"]
    (Or.inl (by decide)) (by decide)).1 11 (by decide)
  rw [h]
  decide

/- ## C4: INT classification guarantees parseability on the sample -/

/-- C4: for a CSV column the pipeline classifies INT, every non-missing
raw value of the sample parses as an integer, so the integer-parse error
branch of the coercer is unreachable on sampled cells: read_csv only
produces an integer dtype when the whole column is integer literals with
no missing cell, and no other read_csv column shape can reach the
`integer`/`mixed-integer` dtypes that map to INT. -/
theorem c4_int_sample_parseable (raws : List (Option String))
    (h : inferColType (readColumn raws) = .INT) :
    (∀ r ∈ raws.take 1000, ∀ s, r = some s → (intString? s).isSome = true)
    ∧ (∀ c ∈ (readColumn raws).take 1000, (coerceCell .INT c).isOk = true) := by
  have hd : inferDtype ((readColumn raws).take 1000) = .integer
      ∨ inferDtype ((readColumn raws).take 1000) = .mixedInteger := by
    by_cases hc : inferDtype ((readColumn raws).take 1000) = .integer
        ∨ inferDtype ((readColumn raws).take 1000) = .mixedInteger
    · exact hc
    · exfalso
      unfold inferColType at h
      rw [if_neg hc] at h
      split at h
      · exact MType.noConfusion h
      · split at h
        · exact MType.noConfusion h
        · split at h
          · exact MType.noConfusion h
          · split at h
            · rcases strFallback_cases ((readColumn raws).take 1000) with hf | hf <;>
                rw [hf] at h <;> exact MType.noConfusion h
            · exact MType.noConfusion h
  by_cases hb1 : raws.all (fun r =>
      match r with
      | some s => (intString? s).isSome
      | none => false) = true
  · refine ⟨?_, ?_⟩
    · intro r hr s hrs
      have hall := List.all_eq_true.mp hb1 r (List.take_subset 1000 raws hr)
      rw [hrs] at hall
      exact hall
    · intro c hc
      have hc2 : c ∈ readColumn raws := List.take_subset 1000 _ hc
      unfold readColumn at hc2
      rw [if_pos hb1] at hc2
      obtain ⟨r, hr, hrc⟩ := List.mem_map.mp hc2
      cases r with
      | none =>
        have hfalse := List.all_eq_true.mp hb1 none hr
        cases hfalse
      | some s =>
        have hps : (intString? s).isSome = true := List.all_eq_true.mp hb1 (some s) hr
        have hrc2 : (match intString? s with
          | some n => Cell.intv n
          | none => Cell.missing) = c := hrc
        cases hip : intString? s with
        | none => rw [hip] at hps; cases hps
        | some n =>
          rw [hip] at hrc2
          rw [← hrc2]
          rfl
  · exfalso
    have hni : ∀ c ∈ (readColumn raws).take 1000, isIntCell c = false := by
      intro c hc
      have hc2 : c ∈ readColumn raws := List.take_subset 1000 _ hc
      unfold readColumn at hc2
      rw [if_neg hb1] at hc2
      split at hc2
      · obtain ⟨r, hr, hrc⟩ := List.mem_map.mp hc2
        cases r with
        | none =>
          rw [← hrc]
          rfl
        | some s =>
          have hrc2 : (match floatString? s with
            | some q => Cell.floatv q
            | none => Cell.missing) = c := hrc
          cases hfp : floatString? s with
          | none =>
            rw [hfp] at hrc2
            rw [← hrc2]
            rfl
          | some q =>
            rw [hfp] at hrc2
            rw [← hrc2]
            rfl
      · obtain ⟨r, hr, hrc⟩ := List.mem_map.mp hc2
        cases r with
        | none =>
          rw [← hrc]
          rfl
        | some s =>
          rw [← hrc]
          rfl
    rcases hd with hd1 | hd1
    · exact (inferDtype_no_int hni).1 hd1
    · exact (inferDtype_no_int hni).2 hd1

/-- Witness for C4 on a concrete two-row integer column. -/
theorem c4_int_sample_parseable_witness :
    inferColType (readColumn [some "1", some "2"]) = .INT
    ∧ (intString? "1").isSome = true :=
  ⟨by decide,
   (c4_int_sample_parseable [some "1", some "2"] (by decide)).1
     (some "1") (by decide) "1" rfl⟩

/- ## Driver lemmas -/

/-- The insert parameters a successfully coerced row contributes. -/
def okVals (types : List (String × MType)) (r : List (String × Cell)) : List (Option Value) :=
  ((coerceRow types r).toOption).getD []

/-- When every row coerces, the loop issues exactly one insert per row, in
order, and reports no error. -/
theorem execRows_all_ok (tn : String) (types : List (String × MType)) (cols : List String)
    (rows : List (List (String × Cell)))
    (h : ∀ r ∈ rows, (coerceRow types r).isOk = true) :
    execRows tn types cols rows =
      (rows.map (fun r => Stmt.insert tn cols (okVals types r)), none) := by
  induction rows with
  | nil => rfl
  | cons r rs ih =>
    obtain ⟨vs, hvs⟩ : ∃ vs, coerceRow types r = .ok vs := by
      have hr := h r (List.mem_cons_self r rs)
      cases hcr : coerceRow types r with
      | ok vs => exact ⟨vs, rfl⟩
      | error e => rw [hcr] at hr; cases hr
    have ih2 := ih (fun x hx => h x (List.mem_cons_of_mem r hx))
    have hok : okVals types r = vs := by
      unfold okVals
      rw [hvs]
      rfl
    unfold execRows
    rw [hvs, ih2]
    simp only [List.map_cons, hok]

/-- When the rows before a failing row all coerce and that row fails, the
loop stops at the failure: it issues exactly the earlier rows' inserts and
reports the row's error. -/
theorem execRows_first_error (tn : String) (types : List (String × MType)) (cols : List String)
    (rows1 : List (List (String × Cell))) (row : List (String × Cell))
    (rows2 : List (List (String × Cell))) (e : String)
    (h1 : ∀ r ∈ rows1, (coerceRow types r).isOk = true)
    (h2 : coerceRow types row = .error e) :
    execRows tn types cols (rows1 ++ row :: rows2) =
      (rows1.map (fun r => Stmt.insert tn cols (okVals types r)), some e) := by
  induction rows1 with
  | nil =>
    rw [List.nil_append, List.map_nil]
    unfold execRows
    rw [h2]
  | cons r rs ih =>
    obtain ⟨vs, hvs⟩ : ∃ vs, coerceRow types r = .ok vs := by
      have hr := h1 r (List.mem_cons_self r rs)
      cases hcr : coerceRow types r with
      | ok vs => exact ⟨vs, rfl⟩
      | error e2 => rw [hcr] at hr; cases hr
    have ih2 := ih (fun x hx => h1 x (List.mem_cons_of_mem r hx))
    have hok : okVals types r = vs := by
      unfold okVals
      rw [hvs]
      rfl
    rw [List.cons_append, List.map_cons]
    unfold execRows
    rw [hvs, ih2]
    simp only [hok]

/-- Every statement the loop issues is an insert into the given table with
the given column list. -/
theorem execRows_stmts (tn : String) (types : List (String × MType)) (cols : List String)
    (rows : List (List (String × Cell))) :
    ∀ st ∈ (execRows tn types cols rows).1, ∃ vs, st = Stmt.insert tn cols vs := by
  induction rows with
  | nil => intro st hst; cases hst
  | cons r rs ih =>
    intro st hst
    unfold execRows at hst
    split at hst
    · rcases List.mem_cons.mp hst with rfl | hst2
      · exact ⟨_, rfl⟩
      · exact ih st hst2
    · cases hst

/- ## C7: numeric coercion failures are fatal -/

/-- C7: for a column whose inferred type is INT or FLOAT the coercer
returns NULL on a missing cell, raises on a non-missing string that does
not parse as the inferred numeric type, and such an uncaught exception
aborts the import at the failing row: the trace keeps the CREATE TABLE
and the inserts of the rows before the failure only — no insert for the
failing or later rows, and no commit. -/
theorem c7_numeric_fatal (df : Df) (col : String) (t : MType)
    (hl : List.lookup col (infer_column_types df) = some t)
    (ht : t = .INT ∨ t = .FLOAT) :
    coerceCell t .missing = .ok none
    ∧ (∀ s, t = .INT → intString? s = none →
        coerceCell t (.strv s) = .error "invalid literal for int() with base 10")
    ∧ (∀ s, t = .FLOAT → floatString? s = none →
        coerceCell t (.strv s) = .error "could not convert string to float")
    ∧ (∀ tn rows1 row rows2 e,
        dfRows df = rows1 ++ row :: rows2 →
        (∀ r ∈ rows1, (coerceRow (infer_column_types df) r).isOk = true) →
        coerceRow (infer_column_types df) row = .error e →
        (runImport tn df).2 = some e
        ∧ Stmt.commitTx ∉ (runImport tn df).1
        ∧ (runImport tn df).1.length = rows1.length + 1) := by
  refine ⟨?_, ?_, ?_, ?_⟩
  · rcases ht with rfl | rfl <;> rfl
  · intro s ht2 hip
    subst ht2
    show (match intString? s with
      | some n => Except.ok (some (Value.intV n))
      | none => Except.error "invalid literal for int() with base 10") = _
    rw [hip]
  · intro s ht2 hfp
    subst ht2
    show (match floatString? s with
      | some q => Except.ok (some (Value.floatV q))
      | none => Except.error "could not convert string to float") = _
    rw [hfp]
  · intro tn rows1 row rows2 e hsplit hok herr
    have he := execRows_first_error tn (infer_column_types df) (df.map Prod.fst)
      rows1 row rows2 e hok herr
    have hrun : runImport tn df =
        (Stmt.create tn (infer_column_types df) ::
          rows1.map (fun r => Stmt.insert tn (df.map Prod.fst)
            (okVals (infer_column_types df) r)), some e) := by
      unfold runImport
      rw [hsplit, he]
    rw [hrun]
    refine ⟨rfl, ?_, ?_⟩
    · intro hmem
      rcases List.mem_cons.mp hmem with hEq | hmem2
      · exact Stmt.noConfusion hEq
      · obtain ⟨r, _, hEq⟩ := List.mem_map.mp hmem2
        exact Stmt.noConfusion hEq
    · rw [List.length_cons, List.length_map]

/-- The DataFrame used to witness C7: a mixed-integer column whose second
cell is a non-numeric string. -/
def c7df : Df := [("n", [Cell.intv 1, Cell.strv "x"])]

/-- Witness for C7: on `c7df` the import aborts at row 1 with the
`int()` error, after inserting only row 0 and never committing. -/
theorem c7_numeric_fatal_witness :
    (runImport "t" c7df).2 = some "invalid literal for int() with base 10"
    ∧ Stmt.commitTx ∉ (runImport "t" c7df).1
    ∧ (runImport "t" c7df).1.length = 1 + 1 := by
  have h := (c7_numeric_fatal c7df "n" .INT (by decide) (Or.inl rfl)).2.2.2
    "t" [dfRow c7df 0] (dfRow c7df 1) [] "invalid literal for int() with base 10"
    (by rfl) (by decide) (by rfl)
  exact ⟨h.1, h.2.1, h.2.2⟩

/- ## C8: one insert per row, one commit after all rows -/

/-- C8: when every row coerces, the import executes the CREATE TABLE,
then exactly one parameterized INSERT per row of the table, in row
order, with the coerced values bound positionally in the table's column
order, and then exactly one commit after the last insert. -/
theorem c8_trace (tn : String) (df : Df)
    (h : ∀ r ∈ dfRows df, (coerceRow (infer_column_types df) r).isOk = true) :
    runImport tn df =
      (Stmt.create tn (infer_column_types df) ::
        (dfRows df).map (fun r =>
          Stmt.insert tn (df.map Prod.fst) (okVals (infer_column_types df) r))
        ++ [Stmt.commitTx], none) := by
  have he := execRows_all_ok tn (infer_column_types df) (df.map Prod.fst) (dfRows df) h
  unfold runImport
  rw [he]

/-- Witness for C8 on a concrete one-column, one-row DataFrame. -/
theorem c8_trace_witness :
    runImport "t" [("a", [Cell.intv 1])] =
      ([Stmt.create "t" [("a", MType.INT)],
        Stmt.insert "t" ["a"] [some (Value.intV 1)],
        Stmt.commitTx], none) := by
  have h := c8_trace "t" [("a", [Cell.intv 1])] (by decide)
  rw [h]
  rfl

/- ## C10: one type per column, closed type set, column order preserved -/

/-- A statement preserves the expected column order: a CREATE TABLE lists
exactly the expected columns in order, an INSERT lists exactly the
expected columns in order, and a commit carries no columns. -/
def stmtColsOk (expected : List String) : Stmt → Bool
  | .create _ cds => cds.map Prod.fst == expected
  | .insert _ cols _ => cols == expected
  | .commitTx => true

/-- C10: the inferred type map has exactly one entry per column of the
DataFrame, in the DataFrame's column order; every entry is drawn from the
closed set INT/FLOAT/DATE/VARCHAR(255)/LONGTEXT; and every executed
statement (CREATE TABLE and each INSERT) lists the columns in exactly
that order. -/
theorem c10_invariants (tn : String) (df : Df) :
    (infer_column_types df).map Prod.fst = df.map Prod.fst
    ∧ ((infer_column_types df).all (fun p =>
        [MType.INT, .FLOAT, .DATE, .VARCHAR255, .LONGTEXT].contains p.2)) = true
    ∧ ((runImport tn df).1.all (stmtColsOk (df.map Prod.fst))) = true := by
  have h1 : (infer_column_types df).map Prod.fst = df.map Prod.fst := by
    unfold infer_column_types
    rw [List.map_map]
    rfl
  refine ⟨h1, ?_, ?_⟩
  · rw [List.all_eq_true]
    intro p _
    rcases p with ⟨n, t⟩
    cases t <;> rfl
  · rw [List.all_eq_true]
    intro st hst
    unfold runImport at hst
    have hins := execRows_stmts tn (infer_column_types df) (df.map Prod.fst) (dfRows df)
    split at hst
    · rcases List.mem_cons.mp hst with rfl | hst2
      · show (List.map Prod.fst (infer_column_types df) == df.map Prod.fst) = true
        exact beq_iff_eq.mpr h1
      · rcases List.mem_append.mp hst2 with hst3 | hst3
        · obtain ⟨vs, rfl⟩ := hins st hst3
          show (df.map Prod.fst == df.map Prod.fst) = true
          exact beq_iff_eq.mpr rfl
        · rw [List.mem_singleton.mp hst3]
          rfl
    · rcases List.mem_cons.mp hst with rfl | hst2
      · show (List.map Prod.fst (infer_column_types df) == df.map Prod.fst) = true
        exact beq_iff_eq.mpr h1
      · obtain ⟨vs, rfl⟩ := hins st hst2
        show (df.map Prod.fst == df.map Prod.fst) = true
        exact beq_iff_eq.mpr rfl
